import Mathlib

/-!
Verification of the tff-cli resource query/filter translation layer.

This file gives a shallow embedding, in Lean, of the core logic of the
tff-cli repository (a Go command-line client for the FeedFactory REST API):

* the relative time-expression parser of cmd/timefilter.go
  (ParseRelativeTime, ParseRelativeDate, ParseRelativeISO), together with a
  model of Go time.Time.AddDate calendar arithmetic and of
  time.Parse with layout 2006-01-02;
* the query construction of internal/api (buildListQuery, the query-building
  prefix of Client.ListEvents, Client.ExportEvents, Client.ExportLocations
  and Client.ExportVenues);
* the pre-network validation performed by the events list and events export
  commands of cmd (EventsListCmd.Run, EventsExportCmd.Run up to the point
  where the HTTP client is invoked);
* the response-shape reconciliation of internal/api
  (Resource.GetTitle over trcItemDetails, FlexStringSlice.UnmarshalJSON).

Theorems about these definitions follow after all definitions.
-/

namespace TffCli

/-! ### Go civil-date model (for time.Time.AddDate) -/

/-- A civil (proleptic Gregorian) date, modelling the year/month/day
components of a Go time.Time.  Time-of-day and location are abstracted
away: every operation the embedded code performs on a time.Time acts on
(or is insensitive to) the civil date only. -/
structure GoDate where
  year : Int
  month : Int
  day : Int
deriving DecidableEq, Repr

/-- Go time.isLeap: leap year in the proleptic Gregorian calendar. -/
def isLeap (y : Int) : Bool := y % 4 == 0 && (y % 100 != 0 || y % 400 == 0)

/-- Number of days in a month of the proleptic Gregorian calendar. -/
def daysInMonth (y m : Int) : Int :=
  if m = 2 then (if isLeap y then 29 else 28)
  else if m = 4 ∨ m = 6 ∨ m = 9 ∨ m = 11 then 30
  else 31

/-- The date has a month in 1..12 and a day in 1..daysInMonth. -/
def validDate (t : GoDate) : Prop :=
  1 ≤ t.month ∧ t.month ≤ 12 ∧ 1 ≤ t.day ∧ t.day ≤ daysInMonth t.year t.month

instance (t : GoDate) : Decidable (validDate t) := by
  unfold validDate; infer_instance

/-- Go time.norm: reduce lo into the range 0 <= lo < base, overflowing
into hi (all quotients here are taken of non-negative arguments, where Go
integer division and Lean Int division agree). -/
def goNorm (hi lo base : Int) : Int × Int :=
  let p := if lo < 0 then
      let n := (-lo - 1) / base + 1
      (hi - n, lo + n * base)
    else (hi, lo)
  if p.2 ≥ base then
    let n := p.2 / base
    (p.1 + n, p.2 - n * base)
  else p

/-- Month normalization performed by Go time.Date: months overflow into
years, leaving a month in 1..12. -/
def normMonth (y m : Int) : Int × Int :=
  let p := goNorm y (m - 1) 12
  (p.1, p.2 + 1)

/-- Days since 1970-01-01 of the first day of the given (normalized) month,
plus a day offset d - 1; this is exactly how Go time.Date turns a
year/month/day triple with a possibly out-of-range day into an absolute
day count (days before the year, plus days before the month, plus day-1). -/
def daysFromCivil (y0 m d : Int) : Int :=
  let y := if m ≤ 2 then y0 - 1 else y0
  let era := Int.fdiv y 400
  let yoe := y - era * 400
  let mp := Int.emod (m + 9) 12
  let doy := (153 * mp + 2) / 5 + d - 1
  let doe := yoe * 365 + yoe / 4 - yoe / 100 + doy
  era * 146097 + doe - 719468

/-- Inverse of daysFromCivil: the proleptic Gregorian date of an absolute
day count (days since 1970-01-01); this is how the year/month/day
components of the Go time.Time produced by time.Date read back. -/
def civilFromDays (z0 : Int) : GoDate :=
  let z := z0 + 719468
  let era := Int.fdiv z 146097
  let doe := z - era * 146097
  let yoe := (doe - doe / 1460 + doe / 36524 - doe / 146096) / 365
  let y := yoe + era * 400
  let doy := doe - (365 * yoe + yoe / 4 - yoe / 100)
  let mp := (5 * doy + 2) / 153
  let d := doy - (153 * mp + 2) / 5 + 1
  let m := mp + (if mp < 10 then 3 else -9)
  ⟨(if m ≤ 2 then y + 1 else y), m, d⟩

/-- Go time.Time.AddDate(years, months, days): add the deltas
componentwise, normalize months into years, then resolve a possibly
out-of-range day by counting days from the first of the normalized month
(so an out-of-range day rolls over into the following months rather than
being clamped).  Go's internal uint64 wrap-around for astronomically large
day counts is outside the scope of this model. -/
def addDate (t : GoDate) (years months days : Int) : GoDate :=
  let p := normMonth (t.year + years) (t.month + months)
  civilFromDays (daysFromCivil p.1 p.2 1 + (t.day + days - 1))

/-! ### Relative time parser (cmd/timefilter.go) -/

/-- Numeric value of a string of decimal digits (most significant first). -/
def digitsToNat (l : List Char) : Nat :=
  l.foldl (fun a c => 10 * a + (c.toNat - 48)) 0

/-- Largest value of a Go int on a 64-bit platform. -/
def maxInt : Int := 9223372036854775807

/-- Two's-complement wrap-around of 64-bit signed integer arithmetic. -/
def wrap64 (x : Int) : Int :=
  (x + 9223372036854775808) % 18446744073709551616 - 9223372036854775808

/-- Go strconv.Atoi applied to a non-empty decimal digit string, with the
error return discarded (as in ParseRelativeTime): the value saturates at
the largest int (strconv.ParseInt returns the maximum magnitude together
with ErrRange on overflow, and the caller ignores the error). -/
def atoi (digits : List Char) : Int :=
  min (digitsToNat digits : Int) maxInt

/-- Match of the anchored regular expression (backslash-d plus, then one of
d, w, mo, y) used by ParseRelativeTime, returning the two capture groups.
Because none of the four unit alternatives starts with a digit, the first
group of any match is exactly the maximal leading run of ASCII digits and
the remainder must equal one of the units. -/
def matchRelative (s : String) : Option (List Char × String) :=
  if s.toList.takeWhile Char.isDigit ≠ [] ∧
      (s.toList.dropWhile Char.isDigit = ['d'] ∨ s.toList.dropWhile Char.isDigit = ['w'] ∨
        s.toList.dropWhile Char.isDigit = ['m', 'o'] ∨ s.toList.dropWhile Char.isDigit = ['y'])
  then some (s.toList.takeWhile Char.isDigit, String.mk (s.toList.dropWhile Char.isDigit))
  else none

/-- The switch on the unit capture group inside ParseRelativeTime: the time
n units before now, via Go AddDate.  In the week branch Go computes the
int64 product -n*7 before calling AddDate, hence the wrap. -/
def relativeResult (now : GoDate) (digits : List Char) (unit : String) : Option GoDate :=
  let n : Int := atoi digits
  if unit = "d" then some (addDate now 0 0 (-n))
  else if unit = "w" then some (addDate now 0 0 (wrap64 (-n * 7)))
  else if unit = "mo" then some (addDate now 0 (-n) 0)
  else if unit = "y" then some (addDate now (-n) 0 0)
  else none

/-- Go time.Parse with layout 2006-01-02: exactly four ASCII digits of
year, a dash, two digits of month, a dash, two digits of day, with the
month in 1..12 and the day in range for that month (Go rejects out-of-range
components with month/day out of range errors). -/
def parseAbsDate (s : String) : Option GoDate :=
  match s.toList with
  | [y1, y2, y3, y4, '-', m1, m2, '-', d1, d2] =>
    if y1.isDigit ∧ y2.isDigit ∧ y3.isDigit ∧ y4.isDigit ∧
       m1.isDigit ∧ m2.isDigit ∧ d1.isDigit ∧ d2.isDigit then
      let y : Int := digitsToNat [y1, y2, y3, y4]
      let mo : Int := digitsToNat [m1, m2]
      let d : Int := digitsToNat [d1, d2]
      if 1 ≤ mo ∧ mo ≤ 12 ∧ 1 ≤ d ∧ d ≤ daysInMonth y mo then
        some ⟨y, mo, d⟩
      else none
    else none
  | _ => none

/-- The DATE_FORMAT_ERROR message of ParseRelativeTime: fmt.Errorf with
verb percent-q on the offending input followed by the list of accepted
forms. -/
def dateFormatError (s : String) : String :=
  "invalid time expression \"" ++ s ++ "\" (use e.g. 3d, 2w, 1mo, 1y, or 2026-01-15)"

/-- ParseRelativeTime of cmd/timefilter.go: if the relative regular
expression matches, the switch on the unit returns n units before now
(the Go switch covers every unit the regular expression can produce, so
the fall-through to the absolute parse from inside the match is dead
code, preserved here by the bind); otherwise try an absolute 2006-01-02
parse; otherwise fail with the DATE_FORMAT_ERROR message. -/
def ParseRelativeTime (now : GoDate) (s : String) : Except String GoDate :=
  match (matchRelative s).bind (fun p => relativeResult now p.1 p.2) with
  | some t => .ok t
  | none =>
    match parseAbsDate s with
    | some t => .ok t
    | none => .error (dateFormatError s)

/-- Zero-pad a non-negative integer to two decimal digits. -/
def pad2 (n : Int) : String :=
  if 0 ≤ n ∧ n < 10 then "0" ++ toString n else toString n

/-- Zero-pad a non-negative integer to four decimal digits. -/
def pad4 (n : Int) : String :=
  if 0 ≤ n ∧ n < 10 then "000" ++ toString n
  else if 0 ≤ n ∧ n < 100 then "00" ++ toString n
  else if 0 ≤ n ∧ n < 1000 then "0" ++ toString n
  else toString n

/-- Go Format with layout 2006-01-02 on the civil date. -/
def formatYYYYMMDD (t : GoDate) : String :=
  pad4 t.year ++ "-" ++ pad2 t.month ++ "-" ++ pad2 t.day

/-- ParseRelativeDate of cmd/timefilter.go: parse, then format as
yyyy-mm-dd. -/
def ParseRelativeDate (now : GoDate) (s : String) : Except String String :=
  (ParseRelativeTime now s).map formatYYYYMMDD

/-- ParseRelativeISO of cmd/timefilter.go: parse, then format as RFC 3339.
Time-of-day is abstracted to midnight UTC in this model; no theorem below
inspects the contents of the produced string. -/
def ParseRelativeISO (now : GoDate) (s : String) : Except String String :=
  (ParseRelativeTime now s).map (fun t => formatYYYYMMDD t ++ "T00:00:00Z")

/-! ### Query construction (internal/api client) -/

/-- A url.Values query, modelled as a finite map from key to value
(url.Values is a Go map; the builders below only ever use Set, which
replaces the value at a key, and Encode ordering is by sorted key, which
no property below depends on). -/
abbrev Query : Type := String → Option String

/-- The empty url.Values. -/
def emptyQ : Query := fun _ => none

/-- url.Values.Set: replace the value stored at a key. -/
def setQ (q : Query) (k v : String) : Query :=
  fun key => if key = k then some v else q key

/-- ListOptions of internal/api: common query parameters for list
endpoints. -/
structure ListOptions where
  Search : String
  Markers : String
  Keywords : String
  Types : String
  Categories : String
  WFStatus : String
  Published : String
  Deleted : Bool
  Owner : String
  UserOrg : String
  TRCID : String
  ExternalID : String
  Language : String
  UpdatedSince : String
  SortField : String
  Asc : Bool
  Size : Int
  Page : Int
deriving Repr

/-- The zero value of ListOptions (all fields empty, false or zero). -/
def emptyListOptions : ListOptions :=
  ⟨"", "", "", "", "", "", "", false, "", "", "", "", "", "", "", false, 0, 0⟩

/-- buildListQuery of internal/api: each field contributes a parameter
only under its own presence test, in program order. -/
def buildListQuery (opts : ListOptions) : Query :=
  let q := emptyQ
  let q := if opts.Search ≠ "" then setQ q "search" opts.Search else q
  let q := if opts.Markers ≠ "" then setQ q "markers" opts.Markers else q
  let q := if opts.Keywords ≠ "" then setQ q "keywords" opts.Keywords else q
  let q := if opts.Types ≠ "" then setQ q "types" opts.Types else q
  let q := if opts.Categories ≠ "" then setQ q "categories" opts.Categories else q
  let q := if opts.WFStatus ≠ "" then setQ q "wfstatus" opts.WFStatus else q
  let q := if opts.Published ≠ "" then setQ q "published" opts.Published else q
  let q := if opts.Deleted then setQ q "deleted" "true" else q
  let q := if opts.Owner ≠ "" then setQ q "owner" opts.Owner else q
  let q := if opts.UserOrg ≠ "" then setQ q "userorganisation" opts.UserOrg else q
  let q := if opts.TRCID ≠ "" then setQ q "trcid" opts.TRCID else q
  let q := if opts.ExternalID ≠ "" then setQ q "externalid" opts.ExternalID else q
  let q := if opts.Language ≠ "" then setQ q "lang" opts.Language else q
  let q := if opts.UpdatedSince ≠ "" then setQ q "lastupdated" opts.UpdatedSince else q
  let q := if opts.SortField ≠ "" then setQ q "sort" opts.SortField else q
  let q := if opts.Asc then setQ q "sortorder" "asc" else q
  let q := if opts.Size > 0 then setQ q "size" (toString opts.Size) else q
  let q := if opts.Page > 0 then setQ q "page" (toString opts.Page) else q
  q

/-- EventListOptions of internal/api: ListOptions plus event-specific
parameters. -/
structure EventListOptions where
  listOptions : ListOptions
  DateFrom : String
  DateTo : String
  LocationID : String
  City : String
  GeoLat : String
  GeoLon : String
  GeoDistance : String
deriving Repr

/-- The query assembled by Client.ListEvents before the GET request:
buildListQuery on the embedded ListOptions, then the event-specific
parameters, with the geo center contributed as a single lat,lon value
only when both coordinates are non-empty. -/
def listEventsQuery (opts : EventListOptions) : Query :=
  let q := buildListQuery opts.listOptions
  let q := if opts.DateFrom ≠ "" then setQ q "eventDateRangeStart" opts.DateFrom else q
  let q := if opts.DateTo ≠ "" then setQ q "eventDateRangeEnd" opts.DateTo else q
  let q := if opts.LocationID ≠ "" then setQ q "locationId" opts.LocationID else q
  let q := if opts.City ≠ "" then setQ q "city" opts.City else q
  let q := if opts.GeoLat ≠ "" ∧ opts.GeoLon ≠ "" then
      setQ q "geo" (opts.GeoLat ++ "," ++ opts.GeoLon) else q
  let q := if opts.GeoDistance ≠ "" then setQ q "geodistance" opts.GeoDistance else q
  q

/-- ExportOptions of internal/api. -/
structure ExportOptions where
  PropertyIDs : String
  Format : String
deriving Repr

/-- The query assembled by Client.ExportEvents before the GET request:
list query, forced format (excel unless overridden), property column ids
under export_propertyids, then the event-specific parameters. -/
def exportEventsQuery (opts : EventListOptions) (exportOpts : ExportOptions) : Query :=
  let q := buildListQuery opts.listOptions
  let format := if exportOpts.Format = "" then "excel" else exportOpts.Format
  let q := setQ q "format" format
  let q := if exportOpts.PropertyIDs ≠ "" then
      setQ q "export_propertyids" exportOpts.PropertyIDs else q
  let q := if opts.DateFrom ≠ "" then setQ q "eventDateRangeStart" opts.DateFrom else q
  let q := if opts.DateTo ≠ "" then setQ q "eventDateRangeEnd" opts.DateTo else q
  let q := if opts.LocationID ≠ "" then setQ q "locationId" opts.LocationID else q
  let q := if opts.City ≠ "" then setQ q "city" opts.City else q
  let q := if opts.GeoLat ≠ "" ∧ opts.GeoLon ≠ "" then
      setQ q "geo" (opts.GeoLat ++ "," ++ opts.GeoLon) else q
  let q := if opts.GeoDistance ≠ "" then setQ q "geodistance" opts.GeoDistance else q
  q

/-- The query assembled by Client.ExportLocations: list query, format
excel, property column ids under export_propertyids. -/
def exportLocationsQuery (opts : ListOptions) (exportOpts : ExportOptions) : Query :=
  let q := buildListQuery opts
  let q := setQ q "format" "excel"
  let q := if exportOpts.PropertyIDs ≠ "" then
      setQ q "export_propertyids" exportOpts.PropertyIDs else q
  q

/-- The query assembled by Client.ExportVenues: list query, format excel,
property column ids under export_properyids — the venues endpoint of the
remote API misspells the key (missing the letter t) and the client
reproduces the misspelling. -/
def exportVenuesQuery (opts : ListOptions) (exportOpts : ExportOptions) : Query :=
  let q := buildListQuery opts
  let q := setQ q "format" "excel"
  let q := if exportOpts.PropertyIDs ≠ "" then
      setQ q "export_properyids" exportOpts.PropertyIDs else q
  q

/-! ### Command-layer validation (cmd/dictionary.go, events commands) -/

/-- Whether an Except value is a success. -/
def exceptIsOk : Except ε α → Bool
  | .ok _ => true
  | .error _ => false

/-- Go strings.Split for a single-character separator, on the character
list of the string: split around every occurrence of the separator (the
empty input yields one empty field, as in Go). -/
def splitOnChar (sep : Char) : List Char → List (List Char)
  | [] => [[]]
  | c :: rest =>
    let r := splitOnChar sep rest
    if c = sep then [] :: r
    else
      match r with
      | h :: t => (c :: h) :: t
      | [] => [[c]]

/-- Go strings.Split(s, comma) as used by FlexStringSlice.UnmarshalJSON. -/
def commaSplit (s : String) : List String :=
  (splitOnChar ',' s.toList).map String.mk

/-- Go strings.SplitN with n = 2 and a single-character separator: split
at the first occurrence only. -/
def splitN2 (s : String) (sep : Char) : List String :=
  match splitOnChar sep s.toList with
  | [] => []
  | [a] => [String.mk a]
  | a :: rest => [String.mk a, String.mk (List.intercalate [sep] rest)]

/-- The flag fields of EventsListCmd that reach the options passed to
Client.ListEvents (output-only flags such as JSON are irrelevant to the
request and omitted). -/
structure EventsListCmd where
  Search : String
  Markers : String
  Keywords : String
  Types : String
  Categories : String
  WFStatus : String
  Published : String
  Deleted : Bool
  Owner : String
  UserOrg : String
  TRCID : String
  ExternalID : String
  Language : String
  UpdatedSince : String
  SortField : String
  Asc : Bool
  Size : Int
  Page : Int
  DateFrom : String
  DateTo : String
  LocationID : String
  City : String
  Geo : String
  GeoDistance : String
deriving Repr

/-- EventsListCmd.Run of cmd/dictionary.go up to the call of
Client.ListEvents: builds the options, resolves the relative dates,
splits and validates the geo flags, and returns either the options that
are handed to the network client or the validation error that aborts the
command before any request is made. -/
def runEventsList (now : GoDate) (c : EventsListCmd) : Except String EventListOptions := do
  let opts : EventListOptions :=
    { listOptions :=
        { Search := c.Search, Markers := c.Markers, Keywords := c.Keywords,
          Types := c.Types, Categories := c.Categories, WFStatus := c.WFStatus,
          Published := c.Published, Deleted := c.Deleted, Owner := c.Owner,
          UserOrg := c.UserOrg, TRCID := c.TRCID, ExternalID := c.ExternalID,
          Language := c.Language, UpdatedSince := "", SortField := c.SortField,
          Asc := c.Asc, Size := c.Size, Page := c.Page },
      DateFrom := "", DateTo := "", LocationID := c.LocationID, City := c.City,
      GeoLat := "", GeoLon := "", GeoDistance := "" }
  let opts ← if c.UpdatedSince ≠ "" then
      match ParseRelativeISO now c.UpdatedSince with
      | .error e => throw ("--updated-since: " ++ e)
      | .ok iso => pure { opts with listOptions := { opts.listOptions with UpdatedSince := iso } }
    else pure opts
  let opts ← if c.DateFrom ≠ "" then
      match ParseRelativeDate now c.DateFrom with
      | .error e => throw ("--date-from: " ++ e)
      | .ok d => pure { opts with DateFrom := d }
    else pure opts
  let opts ← if c.DateTo ≠ "" then
      match ParseRelativeDate now c.DateTo with
      | .error e => throw ("--date-to: " ++ e)
      | .ok d => pure { opts with DateTo := d }
    else pure opts
  let opts ← if c.Geo ≠ "" then
      match splitN2 c.Geo ',' with
      | [lat, lon] => pure { opts with GeoLat := lat.trim, GeoLon := lon.trim }
      | _ => throw "--geo must be in format lat,lon (e.g. 52.37,4.89)"
    else pure opts
  let opts ← if c.GeoDistance ≠ "" then
      if c.Geo = "" then throw "--geo-distance requires --geo flag"
      else pure { opts with GeoDistance := c.GeoDistance }
    else pure opts
  pure opts

/-- The flag fields of EventsExportCmd that reach the export request
(the output path only matters after the response arrives and is kept for
completeness). -/
structure EventsExportCmd where
  Output : String
  Format : String
  PropertyIDs : String
  Search : String
  Markers : String
  Keywords : String
  Types : String
  Categories : String
  WFStatus : String
  Published : String
  Deleted : Bool
  Owner : String
  UserOrg : String
  TRCID : String
  ExternalID : String
  Language : String
  UpdatedSince : String
  SortField : String
  Asc : Bool
  DateFrom : String
  DateTo : String
  LocationID : String
  City : String
  Geo : String
  GeoDistance : String
deriving Repr

/-- EventsExportCmd.Run of cmd/dictionary.go up to the call of
Client.ExportEvents: the uitkrant format check comes first, then the
options are built exactly as in the list command; a success carries the
two argument values handed to the network client (the output file is
written only after that call returns). -/
def runEventsExport (now : GoDate) (c : EventsExportCmd) :
    Except String (EventListOptions × ExportOptions) := do
  if c.Format = "uitkrant" ∧ (c.DateFrom = "" ∨ c.DateTo = "") then
    throw "format \x27uitkrant\x27 requires both --date-from and --date-to"
  let opts : EventListOptions :=
    { listOptions :=
        { Search := c.Search, Markers := c.Markers, Keywords := c.Keywords,
          Types := c.Types, Categories := c.Categories, WFStatus := c.WFStatus,
          Published := c.Published, Deleted := c.Deleted, Owner := c.Owner,
          UserOrg := c.UserOrg, TRCID := c.TRCID, ExternalID := c.ExternalID,
          Language := c.Language, UpdatedSince := "", SortField := c.SortField,
          Asc := c.Asc, Size := 0, Page := 0 },
      DateFrom := "", DateTo := "", LocationID := c.LocationID, City := c.City,
      GeoLat := "", GeoLon := "", GeoDistance := "" }
  let exportOpts : ExportOptions := { PropertyIDs := c.PropertyIDs, Format := c.Format }
  let opts ← if c.UpdatedSince ≠ "" then
      match ParseRelativeISO now c.UpdatedSince with
      | .error e => throw ("--updated-since: " ++ e)
      | .ok iso => pure { opts with listOptions := { opts.listOptions with UpdatedSince := iso } }
    else pure opts
  let opts ← if c.DateFrom ≠ "" then
      match ParseRelativeDate now c.DateFrom with
      | .error e => throw ("--date-from: " ++ e)
      | .ok d => pure { opts with DateFrom := d }
    else pure opts
  let opts ← if c.DateTo ≠ "" then
      match ParseRelativeDate now c.DateTo with
      | .error e => throw ("--date-to: " ++ e)
      | .ok d => pure { opts with DateTo := d }
    else pure opts
  let opts ← if c.Geo ≠ "" then
      match splitN2 c.Geo ',' with
      | [lat, lon] => pure { opts with GeoLat := lat.trim, GeoLon := lon.trim }
      | _ => throw "--geo must be in format lat,lon (e.g. 52.37,4.89)"
    else pure opts
  let opts ← if c.GeoDistance ≠ "" then
      if c.Geo = "" then throw "--geo-distance requires --geo flag"
      else pure { opts with GeoDistance := c.GeoDistance }
    else pure opts
  pure (opts, exportOpts)

/-! ### Response shape reconciliation (internal/api) -/

/-- Language-specific content entry of a resource (trcItemDetails). -/
structure TRCItemDetail where
  Lang : String
  Title : String
  ShortDescription : String
deriving DecidableEq, Repr

/-- Inner loop of Resource.GetTitle: first entry of the given language
with a non-empty title. -/
def findLangTitle (lang : String) : List TRCItemDetail → Option String
  | [] => none
  | d :: rest =>
    if d.Lang = lang ∧ d.Title ≠ "" then some d.Title else findLangTitle lang rest

/-- Outer loop of Resource.GetTitle over the preference list of
languages. -/
def findPreferredTitle (langs : List String) (details : List TRCItemDetail) : Option String :=
  match langs with
  | [] => none
  | lang :: rest =>
    match findLangTitle lang details with
    | some t => some t
    | none => findPreferredTitle rest details

/-- Resource.GetTitle of internal/api: sentinel for an empty list, then
the preferred languages nl, en, de in order, then the first entry, then
the sentinel. -/
def GetTitle (details : List TRCItemDetail) : String :=
  if details.isEmpty then "-"
  else
    match findPreferredTitle ["nl", "en", "de"] details with
    | some t => t
    | none =>
      match details.head? with
      | some d => if d.Title ≠ "" then d.Title else "-"
      | none => "-"

/-- Title resolution as the specification words it: try the languages in
the fixed preference order nl, en, de, the first entry with non-empty
title content wins; if none of the preferred languages has content, fall
back to the first entry of the list; if that, too, is empty (or the list
is empty) return the sentinel. -/
def GetTitleSpec (details : List TRCItemDetail) : String :=
  let pick := fun (lang : String) =>
    details.find? (fun d => d.Lang == lang && d.Title != "")
  match ((pick "nl").orElse fun _ => (pick "en").orElse fun _ => pick "de") with
  | some d => d.Title
  | none =>
    match details.head? with
    | some d => if d.Title = "" then "-" else d.Title
    | none => "-"

/-- A JSON value, as far as the reconciliation of flexible-shape fields
needs it. -/
inductive Json where
  | null : Json
  | bool (b : Bool) : Json
  | num (n : Int) : Json
  | str (s : String) : Json
  | arr (xs : List Json) : Json
  | obj (fields : List (String × Json)) : Json

/-- Go json.Unmarshal into a string variable: a JSON string yields its
contents; JSON null succeeds and leaves the zero value untouched; every
other shape is a type error. -/
def asString : Json → Option String
  | .str s => some s
  | .null => some ""
  | _ => none

/-- Go json.Unmarshal of a JSON array into a string slice, element by
element (a null element leaves the zero string, any other non-string
element is a type error). -/
def asStringList : List Json → Option (List String)
  | [] => some []
  | j :: rest =>
    match asString j with
    | some s =>
      match asStringList rest with
      | some ss => some (s :: ss)
      | none => none
    | none => none

/-- Go json.Unmarshal into a string slice: JSON null succeeds and leaves
the slice nil, a JSON array is decoded elementwise, anything else is a
type error. -/
def asStringArray : Json → Option (List String)
  | .null => some []
  | .arr xs => asStringList xs
  | _ => none

/-- FlexStringSlice.UnmarshalJSON of internal/api: try the value as an
array of strings first, then as a single (possibly comma-joined) string
that is split on commas (the empty string giving the nil slice), and fall
back to the nil slice for anything else; no shape ever produces an
error. -/
def flexUnmarshalJSON (j : Json) : List String :=
  match asStringArray j with
  | some xs => xs
  | none =>
    match asString j with
    | some s => if s = "" then [] else commaSplit s
    | none => []

/-! ### Helper lemmas -/

/-- Reading a key from a query after Set. -/
theorem setQ_apply (q : Query) (k v key : String) :
    setQ q k v key = if key = k then some v else q key := rfl

/-- Reading a key from the empty query. -/
theorem emptyQ_apply (key : String) : emptyQ key = none := rfl

/-- An Except bind is a failure whenever every continuation fails. -/
theorem bind_isOk_false (e : Except ε α) (f : α → Except ε β)
    (h : ∀ a, exceptIsOk (f a) = false) : exceptIsOk (e >>= f) = false := by
  cases e with
  | ok a => exact h a
  | error e => rfl

/-! ### Claim theorems -/

/-- C7: a field of ListOptions contributes a query parameter exactly when
it is present, non-empty or non-default, the numeric page fields only when
strictly positive, absent fields are omitted entirely (not sent as empty
strings), and the query built from the empty criteria has no parameter at
any key. -/
theorem c7_field_presence :
    (∀ k, buildListQuery emptyListOptions k = none) ∧
    (∀ opts : ListOptions,
      buildListQuery opts "search" = (if opts.Search ≠ "" then some opts.Search else none) ∧
      buildListQuery opts "markers" = (if opts.Markers ≠ "" then some opts.Markers else none) ∧
      buildListQuery opts "keywords" = (if opts.Keywords ≠ "" then some opts.Keywords else none) ∧
      buildListQuery opts "types" = (if opts.Types ≠ "" then some opts.Types else none) ∧
      buildListQuery opts "categories" =
        (if opts.Categories ≠ "" then some opts.Categories else none) ∧
      buildListQuery opts "wfstatus" = (if opts.WFStatus ≠ "" then some opts.WFStatus else none) ∧
      buildListQuery opts "published" =
        (if opts.Published ≠ "" then some opts.Published else none) ∧
      buildListQuery opts "deleted" = (if opts.Deleted then some "true" else none) ∧
      buildListQuery opts "owner" = (if opts.Owner ≠ "" then some opts.Owner else none) ∧
      buildListQuery opts "userorganisation" =
        (if opts.UserOrg ≠ "" then some opts.UserOrg else none) ∧
      buildListQuery opts "trcid" = (if opts.TRCID ≠ "" then some opts.TRCID else none) ∧
      buildListQuery opts "externalid" =
        (if opts.ExternalID ≠ "" then some opts.ExternalID else none) ∧
      buildListQuery opts "lang" = (if opts.Language ≠ "" then some opts.Language else none) ∧
      buildListQuery opts "lastupdated" =
        (if opts.UpdatedSince ≠ "" then some opts.UpdatedSince else none) ∧
      buildListQuery opts "sort" = (if opts.SortField ≠ "" then some opts.SortField else none) ∧
      buildListQuery opts "sortorder" = (if opts.Asc then some "asc" else none) ∧
      buildListQuery opts "size" = (if opts.Size > 0 then some (toString opts.Size) else none) ∧
      buildListQuery opts "page" = (if opts.Page > 0 then some (toString opts.Page) else none)) := by
  constructor
  · intro k
    simp [buildListQuery, emptyListOptions, setQ_apply, emptyQ_apply]
  · intro opts
    refine ⟨?_, ?_, ?_, ?_, ?_, ?_, ?_, ?_, ?_, ?_, ?_, ?_, ?_, ?_, ?_, ?_, ?_, ?_⟩ <;>
      simp [buildListQuery, setQ_apply, emptyQ_apply, ite_apply]

/-- C3 counterexample: with sortAscending true (and everything else empty)
the built query carries sortorder with the literal value asc, and no key of
the query carries the literal value true, refuting the claim that each
boolean field contributes a parameter with the literal value true when the
field is true. -/
theorem c3_counterexample :
    buildListQuery ⟨"", "", "", "", "", "", "", false, "", "", "", "", "", "", "", true, 0, 0⟩
        "sortorder" = some "asc" ∧
    ∀ k, buildListQuery ⟨"", "", "", "", "", "", "", false, "", "", "", "", "", "", "", true, 0, 0⟩
        k ≠ some "true" := by
  constructor
  · decide
  · intro k
    simp [buildListQuery, setQ_apply, emptyQ_apply]

/-- C3 amended: includeDeleted contributes the parameter deleted with the
literal value true exactly when the field is true, sortAscending
contributes the parameter sortorder with the value asc (not the literal
true) exactly when the field is true, and neither key is ever sent with
the value false. -/
theorem c3_amended :
    ∀ opts : ListOptions,
      buildListQuery opts "deleted" = (if opts.Deleted then some "true" else none) ∧
      buildListQuery opts "sortorder" = (if opts.Asc then some "asc" else none) ∧
      buildListQuery opts "deleted" ≠ some "false" ∧
      buildListQuery opts "sortorder" ≠ some "false" := by
  intro opts
  refine ⟨?_, ?_, ?_, ?_⟩ <;>
    simp [buildListQuery, setQ_apply, emptyQ_apply, ite_apply]

/-- C2: for every non-empty propertyColumnIds value the export query for
venues carries it under the misspelled key export_properyids and never
under the corrected spelling, while the export queries for events and
locations carry it under export_propertyids and never under the venue
misspelling; an empty value contributes no property-column key at all. -/
theorem c2_property_key_quirk :
    ∀ (lopts : ListOptions) (eopts : EventListOptions) (xopts : ExportOptions),
      exportVenuesQuery lopts xopts "export_properyids" =
        (if xopts.PropertyIDs ≠ "" then some xopts.PropertyIDs else none) ∧
      exportVenuesQuery lopts xopts "export_propertyids" = none ∧
      exportEventsQuery eopts xopts "export_propertyids" =
        (if xopts.PropertyIDs ≠ "" then some xopts.PropertyIDs else none) ∧
      exportEventsQuery eopts xopts "export_properyids" = none ∧
      exportLocationsQuery lopts xopts "export_propertyids" =
        (if xopts.PropertyIDs ≠ "" then some xopts.PropertyIDs else none) ∧
      exportLocationsQuery lopts xopts "export_properyids" = none := by
  intro lopts eopts xopts
  refine ⟨?_, ?_, ?_, ?_, ?_, ?_⟩ <;>
    simp [exportVenuesQuery, exportEventsQuery, exportLocationsQuery, buildListQuery,
      setQ_apply, emptyQ_apply, ite_apply]

/-- The inner loop of GetTitle is a find over the details followed by a
title projection. -/
theorem findLangTitle_eq_find (lang : String) (details : List TRCItemDetail) :
    findLangTitle lang details =
      (details.find? (fun d => d.Lang == lang && d.Title != "")).map TRCItemDetail.Title := by
  induction details with
  | nil => rfl
  | cons d rest ih =>
    by_cases h1 : d.Lang = lang
    · by_cases h2 : d.Title = ""
      · simp [findLangTitle, List.find?_cons, h1, h2, ih]
      · simp [findLangTitle, List.find?_cons, h1, h2, ih]
    · simp [findLangTitle, List.find?_cons, h1, ih]

/-- GetTitle agrees with the specification wording of title resolution. -/
theorem getTitle_eq_spec (details : List TRCItemDetail) :
    GetTitle details = GetTitleSpec details := by
  cases details with
  | nil => rfl
  | cons d rest =>
    unfold GetTitle GetTitleSpec findPreferredTitle
    simp only [List.isEmpty_cons, Bool.false_eq_true, if_false,
      findPreferredTitle, findLangTitle_eq_find, List.head?_cons]
    cases h1 : (d :: rest).find? (fun x => x.Lang == "nl" && x.Title != "") with
    | some t1 => simp [Option.orElse]
    | none =>
      cases h2 : (d :: rest).find? (fun x => x.Lang == "en" && x.Title != "") with
      | some t2 => simp [Option.orElse]
      | none =>
        cases h3 : (d :: rest).find? (fun x => x.Lang == "de" && x.Title != "") with
        | some t3 => simp [Option.orElse]
        | none =>
          simp [Option.orElse, ite_not]

/-- C8: title resolution tries the languages nl, en, de in this order and
returns the first entry with non-empty title content, falls back to the
first entry of the list when no preferred language has content, and
returns the sentinel dash when that entry is empty or the list is empty;
in particular the three examples of the specification hold. -/
theorem c8_title_resolution :
    (∀ details : List TRCItemDetail, GetTitle details = GetTitleSpec details) ∧
    GetTitle [⟨"en", "Foo", ""⟩, ⟨"nl", "Bar", ""⟩] = "Bar" ∧
    GetTitle [⟨"de", "Baz", ""⟩] = "Baz" ∧
    GetTitle [] = "-" :=
  ⟨getTitle_eq_spec, by decide, by decide, rfl⟩

/-- Decoding a JSON array of strings elementwise always succeeds and is
the identity. -/
theorem asStringList_map_str (xs : List String) :
    asStringList (xs.map Json.str) = some xs := by
  induction xs with
  | nil => rfl
  | cons x rest ih => simp [asStringList, asString, ih]

/-- C9: reconciling a markers field normalizes an array of strings to the
same ordered sequence, a bare string to its comma-split (the empty string
to the empty sequence), and null to the empty sequence, always totally;
the three examples of the specification hold. -/
theorem c9_markers_reconciliation :
    (∀ xs : List String, flexUnmarshalJSON (.arr (xs.map .str)) = xs) ∧
    (∀ s : String, flexUnmarshalJSON (.str s) = if s = "" then [] else commaSplit s) ∧
    flexUnmarshalJSON .null = [] ∧
    flexUnmarshalJSON (.str "a,b,c") = ["a", "b", "c"] ∧
    flexUnmarshalJSON (.arr [.str "a", .str "b", .str "c"]) = ["a", "b", "c"] ∧
    flexUnmarshalJSON (.str "") = [] := by
  refine ⟨?_, ?_, rfl, by decide, by decide, rfl⟩
  · intro xs
    simp [flexUnmarshalJSON, asStringArray, asStringList_map_str]
  · intro s
    rfl

/-- Splitting a digit run followed by a non-digit remainder with takeWhile
and dropWhile recovers the two parts. -/
theorem takeWhile_dropWhile_digits (ds us : List Char)
    (h2 : ∀ c ∈ ds, Char.isDigit c)
    (h3 : ∀ c, us.head? = some c → ¬ Char.isDigit c) :
    (ds ++ us).takeWhile Char.isDigit = ds ∧ (ds ++ us).dropWhile Char.isDigit = us := by
  induction ds with
  | nil =>
    cases us with
    | nil => exact ⟨rfl, rfl⟩
    | cons c rest =>
      have hc := h3 c rfl
      simp only [List.nil_append, List.takeWhile_cons, List.dropWhile_cons]
      simp [hc]
  | cons d ds ih =>
    have hd : Char.isDigit d := h2 d (List.mem_cons_self d ds)
    have ih2 := ih (fun c hc => h2 c (List.mem_cons_of_mem d hc))
    simp only [List.cons_append, List.takeWhile_cons, List.dropWhile_cons, hd, if_true]
    exact ⟨by rw [ih2.1], by rw [ih2.2]⟩

/-- The relative regular expression matches a non-empty digit run followed
by one of the four units, capturing the digits and the unit. -/
theorem matchRelative_spec (ds u : List Char) (h1 : ds ≠ [])
    (h2 : ∀ c ∈ ds, Char.isDigit c)
    (h3 : u = ['d'] ∨ u = ['w'] ∨ u = ['m', 'o'] ∨ u = ['y']) :
    matchRelative (String.mk (ds ++ u)) = some (ds, String.mk u) := by
  have hhead : ∀ c, u.head? = some c → ¬ Char.isDigit c := by
    rcases h3 with rfl | rfl | rfl | rfl <;>
      · intro c hc
        simp only [List.head?_cons, Option.some.injEq] at hc
        subst hc
        decide
  obtain ⟨ht, hd⟩ := takeWhile_dropWhile_digits ds u h2 hhead
  unfold matchRelative
  rw [show (String.mk (ds ++ u)).toList = ds ++ u from rfl, ht, hd, if_pos ⟨h1, h3⟩]

/-- A match of the relative regular expression always captures one of the
four units. -/
theorem matchRelative_unit (s : String) (ds : List Char) (u : String)
    (h : matchRelative s = some (ds, u)) :
    u = "d" ∨ u = "w" ∨ u = "mo" ∨ u = "y" := by
  unfold matchRelative at h
  split at h
  · rename_i hc
    simp only [Option.some.injEq, Prod.mk.injEq] at h
    obtain ⟨hds, hu⟩ := h
    rcases hc.2 with hr | hr | hr | hr <;> rw [← hu, hr]
    · exact Or.inl rfl
    · exact Or.inr (Or.inl rfl)
    · exact Or.inr (Or.inr (Or.inl rfl))
    · exact Or.inr (Or.inr (Or.inr rfl))
  · exact absurd h (by simp)

/-- ParseRelativeTime succeeds with the value of the unit switch whenever
the relative regular expression matches. -/
theorem parseRelativeTime_eq_of_match (now : GoDate) (s : String) (ds : List Char)
    (u : String) (t : GoDate) (h : matchRelative s = some (ds, u))
    (hr : relativeResult now ds u = some t) :
    ParseRelativeTime now s = .ok t := by
  unfold ParseRelativeTime
  rw [h]
  simp [Option.bind, hr]

/-- Atoi on a count that fits in an int is exact. -/
theorem atoi_eq_of_le (ds : List Char) (h : (digitsToNat ds : Int) ≤ maxInt) :
    atoi ds = (digitsToNat ds : Int) := min_eq_left h

/-- Wrap-around of 64-bit arithmetic is the identity inside the int64
range. -/
theorem wrap64_eq_self (x : Int) (hlo : -9223372036854775808 ≤ x)
    (hhi : x ≤ 9223372036854775807) : wrap64 x = x := by
  unfold wrap64
  rw [Int.emod_eq_of_lt (by omega) (by omega)]
  omega

/-- C10: whenever the relative grammar matches, ParseRelativeTime succeeds
(the DATE_FORMAT_ERROR branch is unreachable), and a 20-digit day count,
too large for an int, still produces a time value, computed from the
saturated value of the discarded-error integer conversion. -/
theorem c10_relative_never_fails (now : GoDate) (s : String) (ds : List Char)
    (u : String) (h : matchRelative s = some (ds, u)) :
    exceptIsOk (ParseRelativeTime now s) = true ∧
    ParseRelativeTime now (String.mk (List.replicate 20 '9' ++ ['d'])) =
      .ok (addDate now 0 0 (-maxInt)) := by
  constructor
  · rcases matchRelative_unit s ds u h with hu | hu | hu | hu <;> subst hu
    · rw [parseRelativeTime_eq_of_match now s ds "d" (addDate now 0 0 (-(atoi ds))) h rfl]
      rfl
    · rw [parseRelativeTime_eq_of_match now s ds "w"
        (addDate now 0 0 (wrap64 (-(atoi ds) * 7))) h rfl]
      rfl
    · rw [parseRelativeTime_eq_of_match now s ds "mo" (addDate now 0 (-(atoi ds)) 0) h rfl]
      rfl
    · rw [parseRelativeTime_eq_of_match now s ds "y" (addDate now (-(atoi ds)) 0 0) h rfl]
      rfl
  · have hm := matchRelative_spec (List.replicate 20 '9') ['d'] (by decide)
      (by decide) (Or.inl rfl)
    rw [parseRelativeTime_eq_of_match now _ (List.replicate 20 '9') "d"
      (addDate now 0 0 (-(atoi (List.replicate 20 '9')))) hm rfl]
    rw [show atoi (List.replicate 20 '9') = maxInt from by decide]

/-- C6: ParseRelativeTime fails exactly when the input matches neither the
relative grammar nor a valid absolute yyyy-mm-dd date, the error is the
DATE_FORMAT_ERROR message naming the offending input and listing the
accepted forms, and in particular the inputs abc and 3x fail. -/
theorem c6_failure_iff (now : GoDate) (s : String) :
    (exceptIsOk (ParseRelativeTime now s) = false ↔
      matchRelative s = none ∧ parseAbsDate s = none) ∧
    (matchRelative s = none → parseAbsDate s = none →
      ParseRelativeTime now s = .error (dateFormatError s)) ∧
    dateFormatError s =
      "invalid time expression \"" ++ s ++ "\" (use e.g. 3d, 2w, 1mo, 1y, or 2026-01-15)" ∧
    ParseRelativeTime now "abc" = .error (dateFormatError "abc") ∧
    ParseRelativeTime now "3x" = .error (dateFormatError "3x") := by
  refine ⟨?_, ?_, rfl, rfl, rfl⟩
  · cases hm : matchRelative s with
    | none =>
      cases hp : parseAbsDate s with
      | none => simp [ParseRelativeTime, hm, hp, exceptIsOk, Option.bind]
      | some t => simp [ParseRelativeTime, hm, hp, exceptIsOk, Option.bind]
    | some p =>
      obtain ⟨ds1, u1⟩ := p
      have hok : exceptIsOk (ParseRelativeTime now s) = true := by
        rcases matchRelative_unit s ds1 u1 hm with hu | hu | hu | hu <;> subst hu
        · rw [parseRelativeTime_eq_of_match now s ds1 "d"
            (addDate now 0 0 (-(atoi ds1))) hm rfl]
          rfl
        · rw [parseRelativeTime_eq_of_match now s ds1 "w"
            (addDate now 0 0 (wrap64 (-(atoi ds1) * 7))) hm rfl]
          rfl
        · rw [parseRelativeTime_eq_of_match now s ds1 "mo"
            (addDate now 0 (-(atoi ds1)) 0) hm rfl]
          rfl
        · rw [parseRelativeTime_eq_of_match now s ds1 "y"
            (addDate now (-(atoi ds1)) 0 0) hm rfl]
          rfl
      rw [hok]
      simp [hm]
  · intro h1 h2
    simp [ParseRelativeTime, h1, h2, Option.bind]

/-- C6 witness: at the concrete input abc the parser fails with the
DATE_FORMAT_ERROR message naming abc. -/
theorem c6_failure_iff_witness :
    ParseRelativeTime ⟨2026, 1, 15⟩ "abc" = .error (dateFormatError "abc") :=
  (c6_failure_iff ⟨2026, 1, 15⟩ "abc").2.1 (by decide) (by decide)

/-- C1 counterexample: one month before 2026-03-31 is computed by the code
as 2026-03-03 (the normalized form of February 31), not the last day of
February, refuting the last-day-of-month clamping behaviour the claim
requires. -/
theorem c1_counterexample :
    ParseRelativeTime ⟨2026, 3, 31⟩ "1mo" = .ok ⟨2026, 3, 3⟩ ∧
    GoDate.mk 2026 3 3 ≠ GoDate.mk 2026 2 28 :=
  ⟨rfl, by decide⟩

/-- C1 amended: for every relative expression built from a decimal count n
(with n small enough that the int64 products involved do not overflow) and
a unit, ParseRelativeTime succeeds and returns now AddDate with the
unit-appropriate deltas of minus n days, 7n days, n calendar months or n
calendar years; the subtraction is calendar-aware, and a count that lands
past a month boundary is resolved by Go AddDate normalization (overflow
days roll into the following month), not by last-day-of-month clamping:
one month before 2026-03-31 is 2026-03-03, which is a valid date. -/
theorem c1_amended (now : GoDate) (ds : List Char) (h1 : ds ≠ [])
    (h2 : ∀ c ∈ ds, Char.isDigit c)
    (h3 : (digitsToNat ds : Int) * 7 ≤ maxInt) :
    ParseRelativeTime now (String.mk (ds ++ ['d'])) =
      .ok (addDate now 0 0 (-(digitsToNat ds : Int))) ∧
    ParseRelativeTime now (String.mk (ds ++ ['w'])) =
      .ok (addDate now 0 0 (-((digitsToNat ds : Int) * 7))) ∧
    ParseRelativeTime now (String.mk (ds ++ ['m', 'o'])) =
      .ok (addDate now 0 (-(digitsToNat ds : Int)) 0) ∧
    ParseRelativeTime now (String.mk (ds ++ ['y'])) =
      .ok (addDate now (-(digitsToNat ds : Int)) 0 0) ∧
    addDate ⟨2026, 3, 31⟩ 0 (-1) 0 = ⟨2026, 3, 3⟩ ∧
    validDate ⟨2026, 3, 3⟩ := by
  have hM : maxInt = (9223372036854775807 : Int) := rfl
  have hn : (0 : Int) ≤ (digitsToNat ds : Int) := Int.ofNat_nonneg _
  have hle : (digitsToNat ds : Int) ≤ maxInt := by omega
  have ha : atoi ds = (digitsToNat ds : Int) := atoi_eq_of_le ds hle
  refine ⟨?_, ?_, ?_, ?_, by decide, by decide⟩
  · rw [parseRelativeTime_eq_of_match now _ ds "d" (addDate now 0 0 (-(atoi ds)))
      (matchRelative_spec ds ['d'] h1 h2 (Or.inl rfl)) rfl, ha]
  · rw [parseRelativeTime_eq_of_match now _ ds "w"
      (addDate now 0 0 (wrap64 (-(atoi ds) * 7)))
      (matchRelative_spec ds ['w'] h1 h2 (Or.inr (Or.inl rfl))) rfl, ha, neg_mul,
      wrap64_eq_self _ (by omega) (by omega)]
  · rw [parseRelativeTime_eq_of_match now _ ds "mo" (addDate now 0 (-(atoi ds)) 0)
      (matchRelative_spec ds ['m', 'o'] h1 h2 (Or.inr (Or.inr (Or.inl rfl)))) rfl, ha]
  · rw [parseRelativeTime_eq_of_match now _ ds "y" (addDate now (-(atoi ds)) 0 0)
      (matchRelative_spec ds ['y'] h1 h2 (Or.inr (Or.inr (Or.inr rfl)))) rfl, ha]

/-- C1 witness: one month before 2026-03-31, through the amended theorem at
the concrete count 1. -/
theorem c1_amended_witness :
    ParseRelativeTime ⟨2026, 3, 31⟩ (String.mk (['1'] ++ ['m', 'o'])) =
      .ok (addDate ⟨2026, 3, 31⟩ 0 (-((digitsToNat ['1'] : Nat) : Int)) 0) :=
  (c1_amended ⟨2026, 3, 31⟩ ['1'] (by decide) (by decide) (by decide)).2.2.1

/-- C10 witness: the concrete input 3d matches the relative grammar and
parses successfully. -/
theorem c10_relative_never_fails_witness :
    exceptIsOk (ParseRelativeTime ⟨2026, 1, 15⟩ "3d") = true :=
  (c10_relative_never_fails ⟨2026, 1, 15⟩ "3d" ['3'] "d" (by decide)).1

/-- A success of an Except computation carries a value. -/
theorem exceptIsOk_exists (e : Except ε α) (h : exceptIsOk e = true) :
    ∃ v, e = .ok v := by
  cases e with
  | ok a => exact ⟨a, rfl⟩
  | error e => exact absurd h (by simp [exceptIsOk])

/-- C5: requesting the uitkrant export format while either date bound is
absent fails with the EXPORT_FORMAT_REQUIRES_RANGE validation error as the
very first step of the export command, before any option is resolved, so
no request arguments are ever produced for the network client and no
output file is written. -/
theorem c5_uitkrant_requires_range (now : GoDate) (c : EventsExportCmd)
    (h1 : c.Format = "uitkrant") (h2 : c.DateFrom = "" ∨ c.DateTo = "") :
    runEventsExport now c =
      .error "format \x27uitkrant\x27 requires both --date-from and --date-to" := by
  unfold runEventsExport
  rw [if_pos ⟨h1, h2⟩]
  rfl

/-- C5 witness: the concrete export invocation with format uitkrant and no
date bounds fails with the validation error. -/
theorem c5_uitkrant_requires_range_witness :
    runEventsExport ⟨2026, 1, 15⟩
      ⟨"out.txt", "uitkrant", "", "", "", "", "", "", "", "", false, "", "", "", "", "",
        "", "", false, "", "", "", "", "", ""⟩ =
      .error "format \x27uitkrant\x27 requires both --date-from and --date-to" :=
  c5_uitkrant_requires_range ⟨2026, 1, 15⟩ _ rfl (Or.inl rfl)

/-- C4: the geo center contributes a single combined lat,lon query value
exactly when both coordinates are present, in the list query as well as in
the export query; and a geo radius supplied without a geo center makes the
events list command and the events export command fail before the network
client is ever invoked, with the GEO_FILTER_INVALID validation error
whenever the other local validations (date fields, and for the export
command the uitkrant format check that precedes the geo check) are
satisfied. -/
theorem c4_geo_validation (now : GoDate) (c : EventsListCmd) (ce : EventsExportCmd)
    (opts : EventListOptions) (xopts : ExportOptions) :
    (listEventsQuery opts "geo" =
      (if opts.GeoLat ≠ "" ∧ opts.GeoLon ≠ "" then some (opts.GeoLat ++ "," ++ opts.GeoLon)
       else none)) ∧
    (exportEventsQuery opts xopts "geo" =
      (if opts.GeoLat ≠ "" ∧ opts.GeoLon ≠ "" then some (opts.GeoLat ++ "," ++ opts.GeoLon)
       else none)) ∧
    (c.GeoDistance ≠ "" → c.Geo = "" → exceptIsOk (runEventsList now c) = false) ∧
    (c.GeoDistance ≠ "" → c.Geo = "" →
      (c.UpdatedSince = "" ∨ exceptIsOk (ParseRelativeISO now c.UpdatedSince) = true) →
      (c.DateFrom = "" ∨ exceptIsOk (ParseRelativeDate now c.DateFrom) = true) →
      (c.DateTo = "" ∨ exceptIsOk (ParseRelativeDate now c.DateTo) = true) →
      runEventsList now c = .error "--geo-distance requires --geo flag") ∧
    (ce.GeoDistance ≠ "" → ce.Geo = "" → exceptIsOk (runEventsExport now ce) = false) ∧
    (ce.GeoDistance ≠ "" → ce.Geo = "" →
      ¬ (ce.Format = "uitkrant" ∧ (ce.DateFrom = "" ∨ ce.DateTo = "")) →
      (ce.UpdatedSince = "" ∨ exceptIsOk (ParseRelativeISO now ce.UpdatedSince) = true) →
      (ce.DateFrom = "" ∨ exceptIsOk (ParseRelativeDate now ce.DateFrom) = true) →
      (ce.DateTo = "" ∨ exceptIsOk (ParseRelativeDate now ce.DateTo) = true) →
      runEventsExport now ce = .error "--geo-distance requires --geo flag") := by
  refine ⟨?_, ?_, ?_, ?_, ?_, ?_⟩
  · simp [listEventsQuery, buildListQuery, setQ_apply, emptyQ_apply, ite_apply]
  · simp [exportEventsQuery, buildListQuery, setQ_apply, emptyQ_apply, ite_apply]
  · intro h1 h2
    unfold runEventsList
    simp only [h1, h2, ne_eq, not_true_eq_false, not_false_eq_true, ite_true, ite_false,
      if_true, if_false, Bind.bind, Except.bind, pure, Except.pure, ite_self]
    repeat' split
    all_goals rfl
  · intro h1 h2 h3 h4 h5
    have H3 : c.UpdatedSince = "" ∨ ∃ v, ParseRelativeISO now c.UpdatedSince = .ok v :=
      h3.imp id (exceptIsOk_exists _)
    have H4 : c.DateFrom = "" ∨ ∃ v, ParseRelativeDate now c.DateFrom = .ok v :=
      h4.imp id (exceptIsOk_exists _)
    have H5 : c.DateTo = "" ∨ ∃ v, ParseRelativeDate now c.DateTo = .ok v :=
      h5.imp id (exceptIsOk_exists _)
    unfold runEventsList
    rcases H3 with h3e | ⟨v3, h3e⟩ <;> rcases H4 with h4e | ⟨v4, h4e⟩ <;>
      rcases H5 with h5e | ⟨v5, h5e⟩ <;>
      simp [h1, h2, h3e, h4e, h5e, Bind.bind, Except.bind, pure, Except.pure]
  · intro h1 h2
    unfold runEventsExport
    simp only [h1, h2, ne_eq, not_true_eq_false, not_false_eq_true, ite_true, ite_false,
      if_true, if_false, Bind.bind, Except.bind, pure, Except.pure, ite_self]
    repeat' split
    all_goals rfl
  · intro h1 h2 hk h3 h4 h5
    have H3 : ce.UpdatedSince = "" ∨ ∃ v, ParseRelativeISO now ce.UpdatedSince = .ok v :=
      h3.imp id (exceptIsOk_exists _)
    have H4 : ce.DateFrom = "" ∨ ∃ v, ParseRelativeDate now ce.DateFrom = .ok v :=
      h4.imp id (exceptIsOk_exists _)
    have H5 : ce.DateTo = "" ∨ ∃ v, ParseRelativeDate now ce.DateTo = .ok v :=
      h5.imp id (exceptIsOk_exists _)
    unfold runEventsExport
    rcases H3 with h3e | ⟨v3, h3e⟩ <;> rcases H4 with h4e | ⟨v4, h4e⟩ <;>
      rcases H5 with h5e | ⟨v5, h5e⟩ <;>
      simp [h1, h2, hk, h3e, h4e, h5e, Bind.bind, Except.bind, pure, Except.pure] <;>
      exact fun hf => hk ⟨hf, by simp [h4e, h5e]⟩

/-- C4 witness: a concrete list invocation and a concrete export
invocation, each with a geo radius and no geo center, fail with the
validation error, and a concrete pair of coordinates is combined into one
lat,lon value in both the list query and the export query. -/
theorem c4_geo_validation_witness :
    runEventsList ⟨2026, 1, 15⟩
      ⟨"", "", "", "", "", "", "", false, "", "", "", "", "", "", "", false, 0, 0,
        "", "", "", "", "", "10km"⟩ = .error "--geo-distance requires --geo flag" ∧
    runEventsExport ⟨2026, 1, 15⟩
      ⟨"out.xlsx", "excel", "", "", "", "", "", "", "", "", false, "", "", "", "", "",
        "", "", false, "", "", "", "", "", "10km"⟩ =
      .error "--geo-distance requires --geo flag" ∧
    listEventsQuery ⟨emptyListOptions, "", "", "", "", "52.37", "4.89", ""⟩ "geo" =
      some ("52.37" ++ "," ++ "4.89") ∧
    exportEventsQuery ⟨emptyListOptions, "", "", "", "", "52.37", "4.89", ""⟩ ⟨"", ""⟩ "geo" =
      some ("52.37" ++ "," ++ "4.89") := by
  have h := c4_geo_validation ⟨2026, 1, 15⟩
    ⟨"", "", "", "", "", "", "", false, "", "", "", "", "", "", "", false, 0, 0,
      "", "", "", "", "", "10km"⟩
    ⟨"out.xlsx", "excel", "", "", "", "", "", "", "", "", false, "", "", "", "", "",
      "", "", false, "", "", "", "", "", "10km"⟩
    ⟨emptyListOptions, "", "", "", "", "52.37", "4.89", ""⟩ ⟨"", ""⟩
  refine ⟨?_, ?_, ?_, ?_⟩
  · exact h.2.2.2.1 (by decide) rfl (Or.inl rfl) (Or.inl rfl) (Or.inl rfl)
  · exact h.2.2.2.2.2 (by decide) rfl (by decide) (Or.inl rfl) (Or.inl rfl) (Or.inl rfl)
  · rw [h.1]
    rfl
  · rw [h.2.1]
    rfl

end TffCli
